import Mathlib

/-!
Shallow embedding of the factorio_inspect package: the instance lifecycle
core (src/factorio_inspect/instance.py) and the sandbox execution adapter
(src/factorio_inspect/environment.py), together with theorems checking the
design specification against the code.

External container-engine effects (reload status queries, stop/remove
outcomes, exec_run outcomes) are modelled as oracle records supplied to
each operation; the Python code itself is translated function by function.
Machine floats (timeouts) are modelled as rationals; Python integers are
unbounded, so ports and exit codes are Int.
-/

namespace Factorio

/-- Configuration record from config.py (FactorioConfig, pydantic model,
frozen). Only the fields the lifecycle core reads are relevant, but all
scalar fields are kept. -/
structure FactorioConfig where
  docker_image : String := "factorio:latest"
  container_name_prefix : String := "factorio-inspect"
  base_port : Int := 34197
  rcon_port : Int := 27015
  rcon_password : String := "factorio"
  port_range : Int := 100
  headless : Bool := true
  timeout : Rat := 300
  max_retries : Int := 3
  health_check_interval : Rat := 30
  memory_limit : String := "2g"
  cpu_limit : Rat := 2
  log_level : String := "INFO"
  enable_mods : Bool := false

/-- Mutable attribute state of a FactorioInstance (instance.py __init__):
config, instance_id, container handle, docker client handle, _initialized
flag.  The container handle is an opaque id when present.  The rcon_client
attribute is exercised by the repository tests and the spec but its code is
absent from src, so it is carried here as a spec-modelled handle flag. -/
structure InstanceState where
  config : FactorioConfig
  instance_id : String
  container : Option Nat := none
  docker_client : Bool := false
  initialized : Bool := false
  rcon_client : Bool := false

/-- Oracle for the container-engine side of one instance: the status string
the engine reports at the k-th reload call, whether that reload call raises,
and the captured container logs. -/
structure Engine where
  status : Nat → String
  reloadFails : Nat → Bool
  logs : String

/-- Translation of the is_running property (instance.py lines 141-151):
false if not initialized or no container handle; otherwise reload the
container and compare its status to "running"; any exception from the
query is treated as not running. -/
def is_running (s : InstanceState) (e : Engine) : Bool :=
  if !s.initialized || s.container.isNone then false
  else if e.reloadFails 0 then false
  else e.status 0 == "running"

/-- Body of one readiness-poll attempt, the try-block of _wait_for_ready
(instance.py lines 173-186): reload may raise; status "running" means
ready (ok true); status "exited" raises a RuntimeError carrying the
container logs; any other status falls through to the next attempt
(ok false). -/
def ready_attempt (e : Engine) (k : Nat) : Except String Bool :=
  if e.reloadFails k then .error "reload failed"
  else if e.status k == "running" then .ok true
  else if e.status k == "exited" then
    .error ("Container exited. Logs: " ++ e.logs)
  else .ok false

/-- Loop of _wait_for_ready (instance.py lines 169-191), with k the current
attempt index and fuel the remaining attempts.  The blanket except clause
around the attempt body catches every exception raised inside it -
including the RuntimeError raised on an observed "exited" status - prints
occasionally, and continues polling. -/
def wait_go (s : InstanceState) (e : Engine) (max_attempts : Nat) :
    Nat → Nat → Except String Unit
  | _, 0 =>
    .error ("Factorio container failed to become ready after "
      ++ toString max_attempts ++ " attempts")
  | k, fuel + 1 =>
    if s.container.isNone then .error "Container not available"
    else
      match ready_attempt e k with
      | .ok true => .ok ()
      | .ok false => wait_go s e max_attempts (k + 1) fuel
      | .error _ => wait_go s e max_attempts (k + 1) fuel

/-- Translation of _wait_for_ready (instance.py lines 167-193) with its
default max_attempts = 30. -/
def wait_for_ready (s : InstanceState) (e : Engine) (max_attempts : Nat := 30) :
    Except String Unit :=
  wait_go s e max_attempts 0 max_attempts

/-- Host port for game data derived in start (instance.py line 41):
base_port + hash(instance_id) % 1000, with Python % semantics on a
possibly negative hash (Int.emod, nonnegative for a positive modulus).
The Python string hash is process-salted, so it is passed in as an
arbitrary integer h. -/
def game_port (config : FactorioConfig) (h : Int) : Int :=
  config.base_port + h % 1000

/-- Host port for remote commands derived in start (instance.py line 42):
rcon_port + hash(instance_id) % 1000. -/
def rcon_host_port (config : FactorioConfig) (h : Int) : Int :=
  config.rcon_port + h % 1000

/-- Oracle for one start call: outcome of containers.run (error = the
docker exception message), the engine oracle driving the readiness poll,
and whether the best-effort force removal in the except branch raises. -/
structure StartWorld where
  runResult : Except String Nat
  engine : Engine
  forceRemoveFails : Bool
  hashVal : Int

/-- Continuation of start after containers.run returned a container
(instance.py lines 80-91), on the outcome of the readiness wait: success
marks the instance initialized; any exception leads to a best-effort
force removal of the engine-side container (the container attribute
itself is not cleared by the Python code) and a wrapping RuntimeError. -/
def start_ready_k (s : InstanceState) (w : StartWorld) (cid : Nat) :
    Except String Unit → Except String Unit × InstanceState × Option (Int × Int)
  | .ok _ =>
    (.ok (),
     { s with docker_client := true, container := some cid,
              initialized := true },
     some (game_port s.config w.hashVal, rcon_host_port s.config w.hashVal))
  | .error e =>
    (.error ("Failed to start Factorio instance " ++ s.instance_id
      ++ ": " ++ e),
     { s with docker_client := true, container := some cid },
     some (game_port s.config w.hashVal, rcon_host_port s.config w.hashVal))

/-- Continuation of start on the outcome of containers.run (instance.py
lines 76-91): an exception there finds the container attribute still None,
so only the wrapping RuntimeError is raised; a created container is
stored in the attribute and the readiness wait runs. -/
def start_run_k (s : InstanceState) (w : StartWorld) :
    Except String Nat → Except String Unit × InstanceState × Option (Int × Int)
  | .error e =>
    (.error ("Failed to start Factorio instance " ++ s.instance_id
      ++ ": " ++ e),
     { s with docker_client := true },
     some (game_port s.config w.hashVal, rcon_host_port s.config w.hashVal))
  | .ok cid =>
    start_ready_k s w cid
      (wait_for_ready
        { s with docker_client := true, container := some cid } w.engine 30)

/-- Translation of start (instance.py lines 32-91).  Returns the outcome
(error = message of the RuntimeError raised), the post-call attribute
state, and the derived host port pair passed into the container run
request (none on the already-initialized no-op path, which computes no
ports).  No-op when already initialized.  Otherwise a docker client is
acquired, ports are derived, and the run and readiness continuations
above play out. -/
def start (s : InstanceState) (w : StartWorld) :
    Except String Unit × InstanceState × Option (Int × Int) :=
  if s.initialized then (.ok (), s, none)
  else start_run_k s w w.runResult

/-- Oracle for one stop call: the exception message raised by
container.stop(timeout=10), by container.remove(), and by
container.remove(force=True), when each raises (none = succeeds). -/
structure StopWorld where
  stopErr : Option String
  removeErr : Option String
  forceErr : Option String

/-- Translation of stop (instance.py lines 93-115), with the
remote-channel close carried alongside.  Modelled from the spec for the
channel part only: stop closes the remote-command channel if open before
tearing the container down (the rcon code is absent from src; the spec and
the repository tests prescribe it).  The container part is from src: no-op
if never started; otherwise stop then remove the container and clear the
handle; if that raises, force-remove and clear the handle, and if the
force removal itself raises, swallow that and leave the handle set; either
failure re-raises a wrapping RuntimeError; a finally block always clears
_initialized and closes and clears the docker client. -/
def stop (s : InstanceState) (w : StopWorld) :
    Except String Unit × InstanceState :=
  if !s.initialized || s.container.isNone then (.ok (), s)
  else
    match w.stopErr, w.removeErr with
    | none, none =>
      (.ok (),
       { s with rcon_client := false, container := none,
                initialized := false, docker_client := false })
    | some e, _ =>
      if w.forceErr.isSome then
        (.error ("Failed to stop Factorio instance " ++ s.instance_id
          ++ ": " ++ e),
         { s with rcon_client := false,
                  initialized := false, docker_client := false })
      else
        (.error ("Failed to stop Factorio instance " ++ s.instance_id
          ++ ": " ++ e),
         { s with rcon_client := false, container := none,
                  initialized := false, docker_client := false })
    | none, some e =>
      if w.forceErr.isSome then
        (.error ("Failed to stop Factorio instance " ++ s.instance_id
          ++ ": " ++ e),
         { s with rcon_client := false,
                  initialized := false, docker_client := false })
      else
        (.error ("Failed to stop Factorio instance " ++ s.instance_id
          ++ ": " ++ e),
         { s with rcon_client := false, container := none,
                  initialized := false, docker_client := false })

/-- Error kinds of the code-execution entry point: the not-running
lifecycle condition is a distinct kind from transport (connect or send)
failures, so callers can tell them apart. -/
inductive PyExecError where
  | notRunning : PyExecError
  | transport : String → PyExecError
deriving DecidableEq, Repr

/-- Oracle for the remote command channel: whether a connect attempt
raises, and the outcome of sending the command text. -/
structure RconWorld where
  connectFails : Bool
  sendResult : Except String String

/-- Modelled from the spec: the implementation of
FactorioInstance.execute_python_code is absent from src (the src method is
a NotImplementedError stub; the repository tests exercise a full RCON
implementation).  Spec 4.1: requires the instance to be live, failing
with a not-running condition otherwise and never touching the channel;
lazily connects the remote command channel on first use with the
configured port and credential, reusing it afterwards; sends the code as
one remote command and returns the textual result; channel errors are
re-signaled as a transport execution error distinct from the not-running
condition.  Returns the outcome, whether a connect was attempted, and the
post-call state. -/
def execute_python_code (s : InstanceState) (e : Engine) (w : RconWorld)
    (_code : String) (_timeout : Option Rat := none) :
    Except PyExecError String × Bool × InstanceState :=
  if !(is_running s e) then (.error .notRunning, false, s)
  else if s.rcon_client then
    match w.sendResult with
    | .ok r => (.ok r, false, s)
    | .error m => (.error (.transport m), false, s)
  else if w.connectFails then
    (.error (.transport "connect failed"), true, s)
  else
    let s1 : InstanceState := { s with rcon_client := true }
    match w.sendResult with
    | .ok r => (.ok r, true, s1)
    | .error m => (.error (.transport m), true, s1)

/-- Result record from inspect_ai.util.ExecResult as the adapter builds
it: success flag, integer return code, captured stdout and stderr. -/
structure ExecResult where
  success : Bool
  returncode : Int
  stdout : String
  stderr : String
deriving DecidableEq, Repr

/-- Python truthiness of the expression given as timeout or 30.0
(environment.py line 50): None and 0.0 are falsy, so both select the
default. -/
def pyOrDefault (t : Option Rat) (d : Rat) : Rat :=
  match t with
  | none => d
  | some x => if x = 0 then d else x

/-- Oracle for one adapter exec call: the engine view behind the
is_running check, the awaited outcome of instance.execute_python_code
(error = the exception message str(e)), and the outcome of
container.exec_run (exit code and combined output, error = the exception
message). -/
structure ExecWorld where
  engine : Engine
  pyResult : Except String String
  execRun : Except String (Int × String)

/-- Calls the adapter records against the instance and the engine during
one exec call: the (code, timeout) arguments of each
execute_python_code call, and the command vector of each
container.exec_run call. -/
structure ExecTrace where
  pyCalls : List (String × Rat)
  execRunCalls : List (List String)
deriving DecidableEq, Repr

/-- Try-block of the direct-exec path (environment.py lines 67-78): a
missing container handle raises RuntimeError, otherwise exec_run runs the
command and yields the real exit code with combined stdout and stderr
bytes in the single output field, which the adapter decodes into stdout
with an always-empty stderr.  The Bool records whether exec_run was
called. -/
def shell_exec_try (container : Option Nat) (w : ExecWorld) :
    Except String ExecResult × Bool :=
  match container with
  | none => (.error "Container not available", false)
  | some _ =>
    match w.execRun with
    | .ok (code, output) =>
      (.ok { success := code == 0, returncode := code,
             stdout := output, stderr := "" }, true)
    | .error e => (.error e, true)

/-- Direct-exec block of the adapter (environment.py lines 66-93): the
blanket except clause converts every exception raised in the try-block -
the missing-container RuntimeError included - into a failure result whose
stderr is the message prefixed with Execution failed. -/
def shell_exec_block (container : Option Nat) (w : ExecWorld) :
    ExecResult × Bool :=
  match shell_exec_try container w with
  | (.ok r, called) => (r, called)
  | (.error e, called) =>
    ({ success := false, returncode := 1, stdout := "",
       stderr := "Execution failed: " ++ e }, called)

/-- Two-token script-execution prefix test (environment.py line 37):
len(cmd) at least 2 and the first two tokens are python and -c. -/
def isPythonCmd (cmd : List String) : Bool :=
  match cmd with
  | a :: b :: _ => a == "python" && b == "-c"
  | _ => false

/-- Translation of FactorioSandboxEnvironment.exec (environment.py lines
19-93).  Returns the result record and the trace of execution-path calls.
If the instance is not live, a fixed failure result is returned before
either path is touched.  A python -c command routes to
execute_python_code with the third token and the caller timeout or the
30.0 default, converting an ok value into a success result and any
exception into a failure result with the message as stderr; a missing
third token is a failure result.  Every other command goes to the
direct-exec block. -/
def exec (s : InstanceState) (w : ExecWorld) (cmd : List String)
    (timeout : Option Rat := none) : ExecResult × ExecTrace :=
  if !(is_running s w.engine) then
    ({ success := false, returncode := 1, stdout := "",
       stderr := "Factorio instance is not running" },
     { pyCalls := [], execRunCalls := [] })
  else if isPythonCmd cmd then
    match cmd with
    | _ :: _ :: code :: _ =>
      match w.pyResult with
      | .ok r =>
        ({ success := true, returncode := 0, stdout := r, stderr := "" },
         { pyCalls := [(code, pyOrDefault timeout 30)], execRunCalls := [] })
      | .error e =>
        ({ success := false, returncode := 1, stdout := "", stderr := e },
         { pyCalls := [(code, pyOrDefault timeout 30)], execRunCalls := [] })
    | _ =>
      ({ success := false, returncode := 1, stdout := "",
         stderr := "No Python code provided" },
       { pyCalls := [], execRunCalls := [] })
  else
    match shell_exec_block s.container w with
    | (r, called) =>
      (r, { pyCalls := [], execRunCalls := if called then [cmd] else [] })

/-- One sandbox environment as sample_cleanup sees it: its slot name, the
attribute state of its owned instance, and the engine-side stop oracle for
that instance. -/
structure EnvEntry where
  name : String
  inst : InstanceState
  stopWorld : StopWorld

/-- Loop of sample_cleanup (environment.py lines 211-218): each entry has
stop invoked on its instance once inside a try-except whose except arm
prints a warning and continues with the next entry, so a raising stop is
swallowed and never aborts the batch.  Returns the trace: per-entry stop
outcome and post-state, in order. -/
def cleanup_loop : List EnvEntry → List (String × Except String Unit × InstanceState)
  | [] => []
  | en :: rest =>
    match stop en.inst en.stopWorld with
    | (.ok u, post) => (en.name, .ok u, post) :: cleanup_loop rest
    | (.error e, post) => (en.name, .error e, post) :: cleanup_loop rest

/-- Translation of FactorioSandboxEnvironment.sample_cleanup
(environment.py lines 185-218).  A None or empty environments mapping
returns at once; otherwise the cleanup loop runs over the entries.  The
call itself never raises, which the Except result type makes explicit. -/
def sample_cleanup (environments : Option (List EnvEntry)) :
    Except String (List (String × Except String Unit × InstanceState)) :=
  match environments with
  | none => .ok []
  | some [] => .ok []
  | some entries => .ok (cleanup_loop entries)

/-- Default configuration, as FactorioConfig() constructs it. -/
def cfg0 : FactorioConfig := {}

/-- Engine oracle reporting a running container at every reload. -/
def engRunning : Engine :=
  { status := fun _ => "running", reloadFails := fun _ => false, logs := "" }

/-- Engine oracle reporting exited at the first reload and running from
the second reload on, with captured logs. -/
def engExitedThenRunning : Engine :=
  { status := fun k => if k == 0 then "exited" else "running",
    reloadFails := fun _ => false, logs := "boom" }

/-- Engine oracle reporting exited at every reload, with captured logs. -/
def engExitedAlways : Engine :=
  { status := fun _ => "exited", reloadFails := fun _ => false, logs := "boom" }

/-- Freshly constructed instance, as FactorioInstance(config, id) leaves
it: no container, no client, not initialized. -/
def sFresh : InstanceState := { config := cfg0, instance_id := "test" }

/-- Instance attribute state after a successful start. -/
def sLive : InstanceState :=
  { config := cfg0, instance_id := "test", container := some 0,
    docker_client := true, initialized := true }

/-- Started instance that also holds a connected remote channel. -/
def sFull : InstanceState :=
  { config := cfg0, instance_id := "test", container := some 5,
    docker_client := true, initialized := true, rcon_client := true }

/-- Exec oracle: running engine, code execution returning ok, direct exec
returning exit code 0 with combined output. -/
def wOk : ExecWorld :=
  { engine := engRunning, pyResult := .ok "ok", execRun := .ok (0, "out") }

/-- Exec oracle whose direct exec_run call raises. -/
def wShellErr : ExecWorld :=
  { engine := engRunning, pyResult := .ok "ok", execRun := .error "boom" }

/-- Remote channel oracle: connect succeeds, send returns a value. -/
def rconOk : RconWorld := { connectFails := false, sendResult := .ok "42" }

/-- Start oracle: container created as id 7, exited observed at the first
readiness attempt and running from the second on. -/
def wStartExitFirst : StartWorld :=
  { runResult := .ok 7, engine := engExitedThenRunning,
    forceRemoveFails := false, hashVal := 0 }

/-- Start oracle: container created as id 7, exited observed at every
readiness attempt. -/
def wStartExitAlways : StartWorld :=
  { runResult := .ok 7, engine := engExitedAlways,
    forceRemoveFails := false, hashVal := 0 }

/-- Start oracle with a successful run and a negative hash value. -/
def wStartNegHash : StartWorld :=
  { runResult := .ok 7, engine := engRunning,
    forceRemoveFails := false, hashVal := -123 }

/-- Stop oracle where the graceful stop raises and the forced removal
fallback raises as well. -/
def wStopBothFail : StopWorld :=
  { stopErr := some "stop boom", removeErr := none, forceErr := some "force boom" }

/-- Stop oracle for the fully graceful path. -/
def wStopOk : StopWorld := { stopErr := none, removeErr := none, forceErr := none }

/-- A live instance always holds a container handle: the is_running query
returns false outright when the container attribute is None. -/
lemma is_running_isSome (s : InstanceState) (e : Engine)
    (h : is_running s e = true) : s.container.isSome = true := by
  cases hc : s.container with
  | none => rw [is_running, hc] at h; simp at h
  | some c => simp [hc]

/-- An instance whose initialized flag is down never reports running. -/
lemma not_running_of_not_init (s : InstanceState) (e : Engine)
    (h : s.initialized = false) : is_running s e = false := by
  simp [is_running, h]

/-- The cleanup loop visits every entry exactly once, in order, recording
the outcome of the one stop call made on its instance. -/
lemma cleanup_loop_eq (entries : List EnvEntry) :
    cleanup_loop entries
      = entries.map (fun en =>
          (en.name, (stop en.inst en.stopWorld).1, (stop en.inst en.stopWorld).2)) := by
  induction entries with
  | nil => rfl
  | cons en rest ih =>
    rcases h : stop en.inst en.stopWorld with ⟨r, post⟩
    cases r <;> simp [cleanup_loop, h, ih]

/-- C1: evaluation at the failing input.  The claim says start aborts
fatally at an observed exited status, surfacing the captured logs, and
polling never continues past it.  The code instead swallows the exited
RuntimeError in the blanket except of _wait_for_ready: with exited
observed at attempt 0 and running from attempt 1, the readiness wait and
then start itself succeed, leaving an initialized instance with a running
container; with exited persisting, the wait fails only after all 30
attempts, with a message that omits the captured logs (boom). -/
theorem C1_exited_swallowed_eval :
    wait_for_ready sLive engExitedThenRunning 30 = .ok ()
    ∧ (start sFresh wStartExitFirst).1 = .ok ()
    ∧ (start sFresh wStartExitFirst).2.1.initialized = true
    ∧ (start sFresh wStartExitFirst).2.1.container = some 7
    ∧ wait_for_ready sLive engExitedAlways 30
        = .error "Factorio container failed to become ready after 30 attempts" :=
  ⟨rfl, rfl, rfl, rfl, rfl⟩

/-- C2 counterexample: a command reaching the direct-exec block with no
container handle is not propagated as a fault; the internally raised
RuntimeError is caught by the blanket except and converted into a
success=false result, with exactly the same Execution failed stderr shape
a transport failure (second conjunct) produces. -/
theorem C2_counterexample :
    shell_exec_block none wOk
      = ({ success := false, returncode := 1, stdout := "",
           stderr := "Execution failed: Container not available" }, false)
    ∧ (shell_exec_block (some 0) wShellErr).1
      = { success := false, returncode := 1, stdout := "",
          stderr := "Execution failed: boom" } :=
  ⟨rfl, rfl⟩

/-- C2 amended: for every oracle, the direct-exec block with a missing
container handle returns a success=false result carrying the
Execution failed: Container not available message (the raise is swallowed
by the blanket handler, never reaching the caller); moreover the
situation cannot arise through exec, because a true is_running report
implies the container handle is present. -/
theorem C2_missing_handle_swallowed :
    (∀ w : ExecWorld,
      shell_exec_block none w
        = ({ success := false, returncode := 1, stdout := "",
             stderr := "Execution failed: Container not available" }, false))
    ∧ (∀ (s : InstanceState) (e : Engine),
        is_running s e = true → s.container.isSome = true) :=
  ⟨fun _ => rfl, fun s e h => is_running_isSome s e h⟩

/-- C2 witness: instantiates both parts at concrete inputs. -/
theorem C2_missing_handle_swallowed_witness :
    sLive.container.isSome = true
    ∧ (shell_exec_block none wOk).1.success = false :=
  ⟨C2_missing_handle_swallowed.2 sLive engRunning (by decide),
   by rw [C2_missing_handle_swallowed.1 wOk]⟩

/-- C3: on an instance that has not been started, execute_python_code
fails with the not-running condition without attempting a channel
connect, and that condition is distinguishable from every transport
failure.  The operation is modelled from the spec, its implementation
being absent from src. -/
theorem C3_not_started_not_running :
    ∀ (s : InstanceState) (e : Engine) (w : RconWorld) (code : String)
      (t : Option Rat),
      s.initialized = false →
        execute_python_code s e w code t = (.error .notRunning, false, s)
        ∧ ∀ m : String, PyExecError.notRunning ≠ PyExecError.transport m := by
  intro s e w code t h
  refine ⟨?_, ?_⟩
  · simp [execute_python_code, not_running_of_not_init s e h]
  · intro m hm
    exact PyExecError.noConfusion hm

/-- C3 witness: a fresh instance with a healthy engine and channel. -/
theorem C3_not_started_not_running_witness :
    execute_python_code sFresh engRunning rconOk "print(1)" none
      = (.error .notRunning, false, sFresh) :=
  (C3_not_started_not_running sFresh engRunning rconOk "print(1)" none rfl).1

/-- C4 counterexample: on a started instance whose graceful stop raises
and whose forced removal also raises, stop raises as the claim says but
leaves the container handle set, so the handle is not cleared on every
path. -/
theorem C4_counterexample :
    (stop sFull wStopBothFail).1
      = .error "Failed to stop Factorio instance test: stop boom"
    ∧ (stop sFull wStopBothFail).2.container = some 5 :=
  ⟨rfl, rfl⟩

/-- C4 amended: on every stop of a started instance, the initialized flag,
the docker client handle and the remote-channel handle are always cleared
and is_running is false afterwards; the container handle is cleared on
every path except when the forced-removal fallback itself raises, and the
fully graceful path returns ok with the handle cleared.  A successful
start from a fresh instance yields an initialized state holding a
container, so the guarantee covers the start-then-stop scenario. -/
theorem C4_stop_clears_state :
    (∀ (s : InstanceState) (w : StopWorld),
      s.initialized = true → s.container.isSome = true →
        (stop s w).2.initialized = false
        ∧ (stop s w).2.docker_client = false
        ∧ (stop s w).2.rcon_client = false
        ∧ (∀ e : Engine, is_running (stop s w).2 e = false)
        ∧ (w.forceErr = none → (stop s w).2.container = none)
        ∧ (w.stopErr = none → w.removeErr = none →
            (stop s w).1 = .ok () ∧ (stop s w).2.container = none))
    ∧ (∀ (s0 : InstanceState) (sw : StartWorld),
        s0.initialized = false → (start s0 sw).1 = .ok () →
          (start s0 sw).2.1.initialized = true
          ∧ (start s0 sw).2.1.container.isSome = true) := by
  constructor
  · intro s w h1 h2
    obtain ⟨c, hc⟩ := Option.isSome_iff_exists.mp h2
    have key : (stop s w).2.initialized = false
        ∧ (stop s w).2.docker_client = false
        ∧ (stop s w).2.rcon_client = false := by
      cases hs : w.stopErr <;> cases hr : w.removeErr <;>
        cases hf : w.forceErr <;> simp [stop, h1, hc, hs, hr, hf]
    refine ⟨key.1, key.2.1, key.2.2, fun e => not_running_of_not_init _ e key.1,
      ?_, ?_⟩
    · intro hf
      cases hs : w.stopErr <;> cases hr : w.removeErr <;>
        simp [stop, h1, hc, hs, hr, hf]
    · intro hs hr
      simp [stop, h1, hc, hs, hr]
  · intro s0 sw h0 hok
    rw [start, if_neg (by simp [h0])] at hok ⊢
    cases hr : sw.runResult with
    | error e =>
      rw [hr] at hok
      simp [start_run_k] at hok
    | ok cid =>
      rw [hr] at hok
      cases hw : wait_for_ready
          { s0 with docker_client := true, container := some cid } sw.engine 30 with
      | ok u => simp [start_run_k, start_ready_k, hw]
      | error e => simp [start_run_k, start_ready_k, hw] at hok

/-- C4 witness: started instance, fully graceful stop. -/
theorem C4_stop_clears_state_witness :
    (stop sFull wStopOk).2.initialized = false
    ∧ (stop sFull wStopOk).1 = .ok ()
    ∧ (stop sFull wStopOk).2.container = none :=
  ⟨(C4_stop_clears_state.1 sFull wStopOk rfl rfl).1,
   (C4_stop_clears_state.1 sFull wStopOk rfl rfl).2.2.2.2.2 rfl rfl⟩

/-- C5: sample_cleanup over any environments list invokes stop exactly
once on every entry in order, recording each outcome, and itself returns
ok - a raising stop never aborts the batch; a None or empty environments
value is a no-op. -/
theorem C5_cleanup_best_effort :
    sample_cleanup none = .ok []
    ∧ sample_cleanup (some []) = .ok []
    ∧ ∀ entries : List EnvEntry,
        sample_cleanup (some entries)
          = .ok (entries.map (fun en =>
              (en.name, (stop en.inst en.stopWorld).1,
               (stop en.inst en.stopWorld).2))) := by
  refine ⟨rfl, rfl, ?_⟩
  intro entries
  cases entries with
  | nil => rfl
  | cons en rest =>
    show Except.ok (cleanup_loop (en :: rest)) = _
    rw [cleanup_loop_eq]

/-- C6: on a live instance, a command starting with the python -c prefix
never touches the direct-exec path: with no third token it yields the
No Python code provided failure result without calling either path; with
a third token it calls execute_python_code once with that token and the
caller timeout (Python truthiness: None and 0.0 select the 30.0 default),
converting an ok value into a success result and any exception into a
failure result whose stderr is the message; and a command not starting
with that prefix never calls execute_python_code. -/
theorem C6_python_dispatch :
    ∀ (s : InstanceState) (w : ExecWorld) (t : Option Rat),
      (is_running s w.engine = true →
        (∀ rest : List String,
          (exec s w ("python" :: "-c" :: rest) t).2.execRunCalls = [])
        ∧ exec s w ["python", "-c"] t
            = ({ success := false, returncode := 1, stdout := "",
                 stderr := "No Python code provided" },
               { pyCalls := [], execRunCalls := [] })
        ∧ (∀ (code : String) (rest : List String),
            (exec s w ("python" :: "-c" :: code :: rest) t).2.pyCalls
              = [(code, pyOrDefault t 30)]
            ∧ (∀ e, w.pyResult = .error e →
                (exec s w ("python" :: "-c" :: code :: rest) t).1
                  = { success := false, returncode := 1, stdout := "",
                      stderr := e })
            ∧ (∀ r, w.pyResult = .ok r →
                (exec s w ("python" :: "-c" :: code :: rest) t).1
                  = { success := true, returncode := 0, stdout := r,
                      stderr := "" })))
      ∧ (∀ cmd : List String, isPythonCmd cmd = false →
          (exec s w cmd t).2.pyCalls = []) := by
  intro s w t
  constructor
  · intro hrun
    refine ⟨?_, ?_, ?_⟩
    · intro rest
      cases rest with
      | nil => simp [exec, hrun, isPythonCmd]
      | cons code rest2 =>
        cases hp : w.pyResult <;> simp [exec, hrun, isPythonCmd, hp]
    · simp [exec, hrun, isPythonCmd]
    · intro code rest
      refine ⟨?_, ?_, ?_⟩
      · cases hp : w.pyResult <;> simp [exec, hrun, isPythonCmd, hp]
      · intro e he; simp [exec, hrun, isPythonCmd, he]
      · intro r hrr; simp [exec, hrun, isPythonCmd, hrr]
  · intro cmd hcmd
    cases hrun : is_running s w.engine with
    | false => simp [exec, hrun]
    | true =>
      rcases hsb : shell_exec_block s.container w with ⟨r, called⟩
      simp [exec, hrun, hcmd, hsb]

/-- C6 witness: live instance, concrete python command and shell
command. -/
theorem C6_python_dispatch_witness :
    (exec sLive wOk ["python", "-c", "print(1)"] none).2.pyCalls
      = [("print(1)", 30)]
    ∧ (exec sLive wOk ["ls"] none).2.pyCalls = [] :=
  ⟨(((C6_python_dispatch sLive wOk none).1 (by decide)).2.2 "print(1)" []).1,
   (C6_python_dispatch sLive wOk none).2 ["ls"] (by decide)⟩

/-- C7: exec on a not-running instance short-circuits to the fixed
failure result - success false, returncode 1, empty stdout, the fixed
not-running stderr - with an empty call trace: no container-engine exec
call and no code-execution call is made. -/
theorem C7_not_running_short_circuit :
    ∀ (s : InstanceState) (w : ExecWorld) (cmd : List String)
      (t : Option Rat),
      is_running s w.engine = false →
        exec s w cmd t
          = ({ success := false, returncode := 1, stdout := "",
               stderr := "Factorio instance is not running" },
             { pyCalls := [], execRunCalls := [] }) := by
  intro s w cmd t h
  simp [exec, h]

/-- C7 witness: echo on a never-started instance. -/
theorem C7_not_running_short_circuit_witness :
    exec sFresh wOk ["echo", "hi"] none
      = ({ success := false, returncode := 1, stdout := "",
           stderr := "Factorio instance is not running" },
         { pyCalls := [], execRunCalls := [] }) :=
  C7_not_running_short_circuit sFresh wOk ["echo", "hi"] none (by decide)

/-- C8: a non-noop start derives and passes exactly the two host ports
base_port + hash mod 1000 and rcon_port + hash mod 1000, and for every
configuration and every (possibly negative) hash value each lies within
999 of its configured base. -/
theorem C8_derived_ports_in_range :
    ∀ (s : InstanceState) (w : StartWorld),
      s.initialized = false →
        (start s w).2.2
          = some (game_port s.config w.hashVal, rcon_host_port s.config w.hashVal)
        ∧ s.config.base_port ≤ game_port s.config w.hashVal
        ∧ game_port s.config w.hashVal ≤ s.config.base_port + 999
        ∧ s.config.rcon_port ≤ rcon_host_port s.config w.hashVal
        ∧ rcon_host_port s.config w.hashVal ≤ s.config.rcon_port + 999 := by
  intro s w h
  have h0 : (0 : Int) ≤ w.hashVal % 1000 := Int.emod_nonneg _ (by norm_num)
  have h1 : w.hashVal % 1000 < 1000 := Int.emod_lt_of_pos _ (by norm_num)
  refine ⟨?_, ?_, ?_, ?_, ?_⟩
  · rw [start, if_neg (by simp [h])]
    cases hr : w.runResult with
    | error e => simp [start_run_k]
    | ok cid =>
      cases hw : wait_for_ready
          { s with docker_client := true, container := some cid } w.engine 30 with
      | ok u => simp [start_run_k, start_ready_k, hw]
      | error e => simp [start_run_k, start_ready_k, hw]
  · unfold game_port; omega
  · unfold game_port; omega
  · unfold rcon_host_port; omega
  · unfold rcon_host_port; omega

/-- C8 witness: default configuration with a negative hash value. -/
theorem C8_derived_ports_in_range_witness :
    cfg0.base_port ≤ game_port cfg0 (-123)
    ∧ game_port cfg0 (-123) ≤ cfg0.base_port + 999
    ∧ cfg0.rcon_port ≤ rcon_host_port cfg0 (-123) :=
  ⟨(C8_derived_ports_in_range sFresh wStartNegHash rfl).2.1,
   (C8_derived_ports_in_range sFresh wStartNegHash rfl).2.2.1,
   (C8_derived_ports_in_range sFresh wStartNegHash rfl).2.2.2.1⟩

/-- C9: after any stop call on a state in which an initialized instance
holds a container handle (the only states the class itself produces), the
initialized flag is down - on the no-op path it was already down and is
untouched, on every other path the finally block clears it - so a
subsequent is_running query returns false even when the container handle
was not cleared. -/
theorem C9_stop_clears_initialized :
    ∀ (s : InstanceState) (w : StopWorld),
      (s.initialized = true → s.container.isSome = true) →
        (stop s w).2.initialized = false
        ∧ (∀ e : Engine, is_running (stop s w).2 e = false) := by
  intro s w h
  have key : (stop s w).2.initialized = false := by
    cases hi : s.initialized with
    | false => simp [stop, hi]
    | true =>
      obtain ⟨c, hc⟩ := Option.isSome_iff_exists.mp (h hi)
      cases hs : w.stopErr <;> cases hr : w.removeErr <;>
        cases hf : w.forceErr <;> simp [stop, hi, hc, hs, hr, hf]
  exact ⟨key, fun e => not_running_of_not_init _ e key⟩

/-- C9 witness: both stop paths fail, flag still cleared. -/
theorem C9_stop_clears_initialized_witness :
    (stop sFull wStopBothFail).2.initialized = false :=
  (C9_stop_clears_initialized sFull wStopBothFail (fun _ => rfl)).1

/-- C10: a command dispatched to the direct-exec path whose exec_run
completes without an exception yields a result whose stderr is always
empty, whose stdout is the whole combined output, whose returncode is the
reported exit code, and whose success flag is true exactly when that exit
code is 0. -/
theorem C10_shell_result_shape :
    ∀ (s : InstanceState) (w : ExecWorld) (cmd : List String)
      (t : Option Rat) (code : Int) (out : String),
      is_running s w.engine = true → isPythonCmd cmd = false →
      w.execRun = .ok (code, out) →
        (exec s w cmd t).1.stderr = ""
        ∧ (exec s w cmd t).1.stdout = out
        ∧ (exec s w cmd t).1.returncode = code
        ∧ ((exec s w cmd t).1.success = true ↔ code = 0) := by
  intro s w cmd t code out hrun hcmd hexec
  obtain ⟨c, hc⟩ := Option.isSome_iff_exists.mp (is_running_isSome s w.engine hrun)
  simp [exec, hrun, hcmd, shell_exec_block, shell_exec_try, hc, hexec,
    beq_iff_eq]

/-- C10 witness: ls on a live instance with exit code 0. -/
theorem C10_shell_result_shape_witness :
    (exec sLive wOk ["ls"] none).1.stderr = ""
    ∧ ((exec sLive wOk ["ls"] none).1.success = true ↔ (0 : Int) = 0) :=
  ⟨(C10_shell_result_shape sLive wOk ["ls"] none 0 "out" (by decide)
      (by decide) rfl).1,
   (C10_shell_result_shape sLive wOk ["ls"] none 0 "out" (by decide)
      (by decide) rfl).2.2.2⟩

end Factorio
